import Mathlib

/-!
Verification of the MMG payment reconciliation core of the
portal-systemic-vision repository.

The development shallowly embeds the relevant routes:

* the encryption codec (`src/lib/encryption`: `encrypt`, `toBase64Url`,
  `decrypt`) — RSA-OAEP is an external library call (Node `crypto`) and is
  modelled as an abstract scheme; the base64url framing, the padding
  restore logic and the latin1 byte conversion are embedded concretely;
* the gateway callback handler `GET /api/mmg/webhook`
  (`src/app/api/mmg/webhook/route.ts`);
* the client confirmation handler (`POST` confirm-payment route in the
  repository, second handler of `src/unnamed/part_005`).

JavaScript strings are modelled as lists of UTF-16 code units (`List ℕ`)
where byte-level behaviour matters, and as Lean `String` elsewhere.
Numbers are modelled as `ℚ` (the routes never exercise IEEE rounding on the
values the claims are about).  Supabase query/write calls are modelled as
pure operations on an explicit store; a call that the route allows to fail
is given an explicit failure switch.
-/

set_option maxRecDepth 4096

/-! ## Base64 / URL-safe token codec (src/lib/encryption) -/

/-- Index `n < 64` of the standard base64 alphabet to its character. -/
def b64char (n : ℕ) : Char :=
  if n < 26 then Char.ofNat (65 + n)
  else if n < 52 then Char.ofNat (97 + (n - 26))
  else if n < 62 then Char.ofNat (48 + (n - 52))
  else if n = 62 then '+'
  else '/'

/-- Reverse alphabet lookup; `none` for characters outside the alphabet. -/
def b64index (c : Char) : Option ℕ :=
  let n := c.toNat
  if 65 ≤ n ∧ n ≤ 90 then some (n - 65)
  else if 97 ≤ n ∧ n ≤ 122 then some (n - 97 + 26)
  else if 48 ≤ n ∧ n ≤ 57 then some (n - 48 + 52)
  else if c = '+' then some 62
  else if c = '/' then some 63
  else none

/-- Standard base64 encoding of a byte list (model of
`Buffer.toString('base64')`), producing `'='` padding. -/
def b64encode : List ℕ → List Char
  | [] => []
  | [b1] => [b64char (b1 / 4), b64char (b1 % 4 * 16), '=', '=']
  | [b1, b2] =>
      [b64char (b1 / 4), b64char (b1 % 4 * 16 + b2 / 16), b64char (b2 % 16 * 4), '=']
  | b1 :: b2 :: b3 :: rest =>
      b64char (b1 / 4) :: b64char (b1 % 4 * 16 + b2 / 16) ::
      b64char (b2 % 16 * 4 + b3 / 64) :: b64char (b3 % 64) :: b64encode rest

/-- Base64 decoding of a well-formed padded string (model of
`Buffer.from(s, 'base64')` on the well-formed inputs this codec produces). -/
def b64decode : List Char → Option (List ℕ)
  | [] => some []
  | c1 :: c2 :: c3 :: c4 :: rest =>
      if c3 = '=' ∧ c4 = '=' ∧ rest = [] then
        match b64index c1, b64index c2 with
        | some n1, some n2 => some [n1 * 4 + n2 / 16]
        | _, _ => none
      else if c4 = '=' ∧ rest = [] then
        match b64index c1, b64index c2, b64index c3 with
        | some n1, some n2, some n3 =>
            some [n1 * 4 + n2 / 16, n2 % 16 * 16 + n3 / 4]
        | _, _, _ => none
      else
        match b64index c1, b64index c2, b64index c3, b64index c4, b64decode rest with
        | some n1, some n2, some n3, some n4, some tail =>
            some ((n1 * 4 + n2 / 16) :: (n2 % 16 * 16 + n3 / 4) :: (n3 % 4 * 64 + n4) :: tail)
        | _, _, _, _, _ => none
  | _ => none

/-- Substitutions `'+' → '-'` and `'/' → '_'` (the two `replace` calls of
`toBase64Url`). -/
def urlSafeChar (c : Char) : Char :=
  if c = '+' then '-' else if c = '/' then '_' else c

/-- Reverse substitutions `'-' → '+'` and `'_' → '/'` (in `decrypt`). -/
def fromUrlSafeChar (c : Char) : Char :=
  if c = '-' then '+' else if c = '_' then '/' else c

/-- Strip the trailing run of `'='` characters (`replace(/=+$/, '')`). -/
def stripTrailingEq (l : List Char) : List Char :=
  (l.reverse.dropWhile (fun c => c = '=')).reverse

/-- Function `toBase64Url` from `src/lib/encryption`: base64, URL-safe character
substitutions, trailing padding stripped. -/
def toBase64Url (bytes : List ℕ) : List Char :=
  stripTrailingEq ((b64encode bytes).map urlSafeChar)

/-- The padding-restore prologue of `decrypt`:
`paddingNeeded = 4 - len % 4`, appended when `< 4`. -/
def restorePad (l : List Char) : List Char :=
  let padding := 4 - l.length % 4
  if padding < 4 then l ++ List.replicate padding '=' else l

/-- The full token-to-ciphertext direction of `decrypt`: restore padding,
reverse the character substitutions, base64-decode. -/
def fromBase64Url (l : List Char) : Option (List ℕ) :=
  b64decode ((restorePad l).map fromUrlSafeChar)

theorem b64index_b64char : ∀ n < 64, b64index (b64char n) = some n := by decide

theorem urlSafeChar_roundtrip :
    ∀ n < 64, fromUrlSafeChar (urlSafeChar (b64char n)) = b64char n := by decide

theorem b64char_ne_eq : ∀ n < 64, b64char n ≠ '=' := by decide

theorem urlSafe_b64char_ne_eq : ∀ n < 64, urlSafeChar (b64char n) ≠ '=' := by decide

theorem dropWhileEq_append_right (u v : List Char) (hv : ∀ c ∈ v, c ≠ '=') :
    (u ++ v).dropWhile (fun c => c = '=') =
      u.dropWhile (fun c => c = '=') ++ v := by
  induction u with
  | nil =>
      simp only [List.nil_append, List.dropWhile_nil]
      cases v with
      | nil => rfl
      | cons c v' =>
          have hc : c ≠ '=' := hv c (by simp)
          simp [List.dropWhile, hc]
  | cons x u' ih =>
      simp only [List.cons_append, List.dropWhile]
      by_cases hx : x = '='
      · simp [hx, ih]
      · simp [hx]

theorem stripTrailingEq_append (a b : List Char) (ha : ∀ c ∈ a, c ≠ '=') :
    stripTrailingEq (a ++ b) = a ++ stripTrailingEq b := by
  unfold stripTrailingEq
  rw [List.reverse_append, dropWhileEq_append_right _ _ (by simpa using ha),
    List.reverse_append, List.reverse_reverse]

theorem stripTrailingEq_two_pad (a b : Char) (hb : b ≠ '=') :
    stripTrailingEq [a, b, '=', '='] = [a, b] := by
  simp [stripTrailingEq, List.dropWhile, hb]

theorem stripTrailingEq_one_pad (a b c : Char) (hc : c ≠ '=') :
    stripTrailingEq [a, b, c, '='] = [a, b, c] := by
  simp [stripTrailingEq, List.dropWhile, hc]

theorem restorePad_cons4 (x1 x2 x3 x4 : Char) (s : List Char) :
    restorePad (x1 :: x2 :: x3 :: x4 :: s) = x1 :: x2 :: x3 :: x4 :: restorePad s := by
  unfold restorePad
  have hlen : (x1 :: x2 :: x3 :: x4 :: s).length % 4 = s.length % 4 := by
    simp only [List.length_cons]
    omega
  rw [hlen]
  by_cases h : 4 - s.length % 4 < 4 <;> simp [h]

theorem urlSafeChar_pad : urlSafeChar '=' = '=' := rfl

theorem fromUrlSafeChar_pad : fromUrlSafeChar '=' = '=' := rfl

theorem restorePad_two (a b : Char) : restorePad [a, b] = [a, b, '=', '='] := rfl

theorem restorePad_three (a b c : Char) : restorePad [a, b, c] = [a, b, c, '='] := rfl

theorem b64decode_two_pad (n1 n2 : ℕ) (h1 : n1 < 64) (h2 : n2 < 64) :
    b64decode [b64char n1, b64char n2, '=', '='] = some [n1 * 4 + n2 / 16] := by
  simp [b64decode, b64index_b64char _ h1, b64index_b64char _ h2]

theorem b64decode_one_pad (n1 n2 n3 : ℕ) (h1 : n1 < 64) (h2 : n2 < 64) (h3 : n3 < 64) :
    b64decode [b64char n1, b64char n2, b64char n3, '='] =
      some [n1 * 4 + n2 / 16, n2 % 16 * 16 + n3 / 4] := by
  have e3 := b64char_ne_eq _ h3
  simp [b64decode, e3, b64index_b64char _ h1, b64index_b64char _ h2, b64index_b64char _ h3]

theorem b64decode_quad (n1 n2 n3 n4 : ℕ) (h1 : n1 < 64) (h2 : n2 < 64) (h3 : n3 < 64)
    (h4 : n4 < 64) (t : List Char) (tail : List ℕ) (ht : b64decode t = some tail) :
    b64decode (b64char n1 :: b64char n2 :: b64char n3 :: b64char n4 :: t) =
      some ((n1 * 4 + n2 / 16) :: (n2 % 16 * 16 + n3 / 4) :: (n3 % 4 * 64 + n4) :: tail) := by
  have e3 := b64char_ne_eq _ h3
  have e4 := b64char_ne_eq _ h4
  simp [b64decode, e3, e4, b64index_b64char _ h1, b64index_b64char _ h2,
    b64index_b64char _ h3, b64index_b64char _ h4, ht]

/-- Round trip of the URL-safe framing: stripping the padding, substituting
the URL-safe characters, then restoring padding and decoding recovers the
byte list. -/
theorem fromBase64Url_toBase64Url :
    ∀ bytes : List ℕ, (∀ b ∈ bytes, b < 256) →
      fromBase64Url (toBase64Url bytes) = some bytes := by
  intro bytes
  induction bytes using b64encode.induct with
  | case1 => intro _; rfl
  | case2 b1 =>
      intro hb
      have h1 : b1 < 256 := hb b1 (by simp)
      have hn1 : b1 / 4 < 64 := by omega
      have hn2 : b1 % 4 * 16 < 64 := by omega
      have e1 : toBase64Url [b1]
          = [urlSafeChar (b64char (b1 / 4)), urlSafeChar (b64char (b1 % 4 * 16))] := by
        unfold toBase64Url
        rw [show b64encode [b1]
            = [b64char (b1 / 4), b64char (b1 % 4 * 16), '=', '='] from rfl]
        simp only [List.map, urlSafeChar_pad]
        exact stripTrailingEq_two_pad _ _ (urlSafe_b64char_ne_eq _ hn2)
      rw [e1]
      unfold fromBase64Url
      rw [restorePad_two]
      simp only [List.map, fromUrlSafeChar_pad,
        urlSafeChar_roundtrip _ hn1, urlSafeChar_roundtrip _ hn2]
      rw [b64decode_two_pad _ _ hn1 hn2]
      simp only [Option.some.injEq, List.cons.injEq, and_true]
      omega
  | case3 b1 b2 =>
      intro hb
      have h1 : b1 < 256 := hb b1 (by simp)
      have h2 : b2 < 256 := hb b2 (by simp)
      have hn1 : b1 / 4 < 64 := by omega
      have hn2 : b1 % 4 * 16 + b2 / 16 < 64 := by omega
      have hn3 : b2 % 16 * 4 < 64 := by omega
      have e1 : toBase64Url [b1, b2]
          = [urlSafeChar (b64char (b1 / 4)), urlSafeChar (b64char (b1 % 4 * 16 + b2 / 16)),
             urlSafeChar (b64char (b2 % 16 * 4))] := by
        unfold toBase64Url
        rw [show b64encode [b1, b2]
            = [b64char (b1 / 4), b64char (b1 % 4 * 16 + b2 / 16), b64char (b2 % 16 * 4), '=']
          from rfl]
        simp only [List.map, urlSafeChar_pad]
        exact stripTrailingEq_one_pad _ _ _ (urlSafe_b64char_ne_eq _ hn3)
      rw [e1]
      unfold fromBase64Url
      rw [restorePad_three]
      simp only [List.map, fromUrlSafeChar_pad, urlSafeChar_roundtrip _ hn1,
        urlSafeChar_roundtrip _ hn2, urlSafeChar_roundtrip _ hn3]
      rw [b64decode_one_pad _ _ _ hn1 hn2 hn3]
      simp only [Option.some.injEq, List.cons.injEq, and_true]
      exact ⟨by omega, by omega⟩
  | case4 b1 b2 b3 rest ih =>
      intro hb
      have h1 : b1 < 256 := hb b1 (by simp)
      have h2 : b2 < 256 := hb b2 (by simp)
      have h3 : b3 < 256 := hb b3 (by simp)
      have hrest : ∀ b ∈ rest, b < 256 := fun b hbm => hb b (by simp [hbm])
      have hn1 : b1 / 4 < 64 := by omega
      have hn2 : b1 % 4 * 16 + b2 / 16 < 64 := by omega
      have hn3 : b2 % 16 * 4 + b3 / 64 < 64 := by omega
      have hn4 : b3 % 64 < 64 := by omega
      have e1 : toBase64Url (b1 :: b2 :: b3 :: rest)
          = urlSafeChar (b64char (b1 / 4)) :: urlSafeChar (b64char (b1 % 4 * 16 + b2 / 16)) ::
            urlSafeChar (b64char (b2 % 16 * 4 + b3 / 64)) :: urlSafeChar (b64char (b3 % 64)) ::
            toBase64Url rest := by
        unfold toBase64Url
        rw [show b64encode (b1 :: b2 :: b3 :: rest)
            = b64char (b1 / 4) :: b64char (b1 % 4 * 16 + b2 / 16) ::
              b64char (b2 % 16 * 4 + b3 / 64) :: b64char (b3 % 64) :: b64encode rest from rfl]
        simp only [List.map]
        rw [show urlSafeChar (b64char (b1 / 4)) :: urlSafeChar (b64char (b1 % 4 * 16 + b2 / 16)) ::
              urlSafeChar (b64char (b2 % 16 * 4 + b3 / 64)) :: urlSafeChar (b64char (b3 % 64)) ::
              List.map urlSafeChar (b64encode rest)
            = [urlSafeChar (b64char (b1 / 4)), urlSafeChar (b64char (b1 % 4 * 16 + b2 / 16)),
               urlSafeChar (b64char (b2 % 16 * 4 + b3 / 64)), urlSafeChar (b64char (b3 % 64))] ++
              List.map urlSafeChar (b64encode rest) from rfl]
        rw [stripTrailingEq_append]
        · rfl
        · intro c hc
          simp only [List.mem_cons, List.not_mem_nil, or_false] at hc
          rcases hc with h | h | h | h <;> subst h
          · exact urlSafe_b64char_ne_eq _ hn1
          · exact urlSafe_b64char_ne_eq _ hn2
          · exact urlSafe_b64char_ne_eq _ hn3
          · exact urlSafe_b64char_ne_eq _ hn4
      rw [e1]
      unfold fromBase64Url
      rw [restorePad_cons4]
      simp only [List.map, urlSafeChar_roundtrip _ hn1, urlSafeChar_roundtrip _ hn2,
        urlSafeChar_roundtrip _ hn3, urlSafeChar_roundtrip _ hn4]
      have hT : b64decode (((restorePad (toBase64Url rest)).map fromUrlSafeChar)) = some rest := by
        have := ih hrest
        unfold fromBase64Url at this
        exact this
      rw [b64decode_quad _ _ _ _ hn1 hn2 hn3 hn4 _ _ hT]
      simp only [Option.some.injEq, List.cons.injEq, and_true]
      exact ⟨by omega, by omega, by omega⟩

/-! ## Encryption pipeline (src/lib/encryption: encrypt / decrypt)

`crypto.publicEncrypt` / `crypto.privateDecrypt` (Node's crypto library,
external to this repository) are modelled as an abstract scheme; the
JSON codec (`JSON.stringify(·, null, 4)` / `JSON.parse`) is abstract as
well.  The latin1 conversions and the URL-safe base64 framing are the
repository's own logic and are embedded concretely. -/

/-- Node `Buffer.from(s, 'latin1')`: every UTF-16 code unit of the string is
truncated to its low byte (`charCode & 0xFF`). -/
def latin1Encode (s : List ℕ) : List ℕ := s.map (fun c => c % 256)

/-- Node `buf.toString('latin1')`: each byte becomes the code unit of the same
value. -/
def latin1Decode (b : List ℕ) : List ℕ := b

/-- Abstract model of the RSA-OAEP primitive pair used by the codec
(`crypto.publicEncrypt` / `crypto.privateDecrypt`, identical OAEP SHA-256
parameters on both sides). -/
structure RSAScheme where
  enc : List ℕ → List ℕ
  dec : List ℕ → Option (List ℕ)

/-- Function `encrypt(checkoutObject)` from src/lib/encryption: serialize (`ser`
models `JSON.stringify(·, null, 4)`), convert to bytes with latin1, RSA
encrypt. -/
def encryptObj {α : Type} (S : RSAScheme) (ser : α → List ℕ) (o : α) : List ℕ :=
  S.enc (latin1Encode (ser o))

/-- Function `decrypt(base64UrlString)` from src/lib/encryption: restore padding,
reverse the URL-safe substitutions, base64-decode, RSA decrypt, read the
plaintext as a latin1 string and parse it (`deser` models `JSON.parse`). -/
def decryptObj {α : Type} (S : RSAScheme) (deser : List ℕ → Option α)
    (token : List Char) : Option α := do
  let ct ← fromBase64Url token
  let pt ← S.dec ct
  deser (latin1Decode pt)

/-- Identity instance of the abstract scheme, used to evaluate the
pipeline on concrete inputs. -/
def idScheme : RSAScheme := ⟨fun m => m, fun c => some c⟩

/-- Claim C4, counterexample: the round trip fails for a serializable
object whose serialization contains a code unit above `0xFF`.
`JSON.stringify` leaves non-ASCII characters unescaped, so an object
containing `'€'` (U+20AC) serializes to a string containing code unit
8364; `Buffer.from(json, 'latin1')` truncates it to the byte 172, and the
decrypted object contains `'¬'` (U+00AC) instead.  Exhibited here on the
serialized string itself (serializer = identity, scheme = identity, both
satisfying their round-trip contracts). -/
theorem mmg_codec_roundtrip_fails_above_latin1 :
    decryptObj idScheme (fun b => some b)
        (toBase64Url (encryptObj idScheme (fun o => o) [8364])) = some [172] ∧
      ([172] : List ℕ) ≠ [8364] := by
  constructor
  · rfl
  · decide

/-- Claim C4 (amended): for every serializable object whose serialization
stays within the latin1 range (all code units `< 256`),
`decrypt(toUrlSafeToken(encrypt(O))) = O`: the padding restore, the
character-substitution reversal, the base64 decode and the latin1
decode recover the serialized string exactly, given that the external
RSA-OAEP pair and the JSON codec honour their round-trip contracts on
this input. -/
theorem mmg_codec_roundtrip_latin1 {α : Type} (S : RSAScheme) (ser : α → List ℕ)
    (deser : List ℕ → Option α) (o : α)
    (hser : deser (ser o) = some o)
    (hlatin : ∀ c ∈ ser o, c < 256)
    (hdec : S.dec (S.enc (ser o)) = some (ser o))
    (hbytes : ∀ b ∈ S.enc (ser o), b < 256) :
    decryptObj S deser (toBase64Url (encryptObj S ser o)) = some o := by
  have hid : latin1Encode (ser o) = ser o := by
    unfold latin1Encode
    have h := List.map_congr_left (fun c hc => Nat.mod_eq_of_lt (hlatin c hc))
    simpa using h
  unfold encryptObj decryptObj
  rw [hid, fromBase64Url_toBase64Url _ hbytes]
  simp only [Option.bind_eq_bind, Option.some_bind, hdec, latin1Decode]
  exact hser

/-- Witness for `mmg_codec_roundtrip_latin1` at a concrete latin1-range
input. -/
theorem mmg_codec_roundtrip_latin1_witness :
    decryptObj idScheme (fun b => some b)
        (toBase64Url (encryptObj idScheme (fun o => o) [65, 255, 0])) = some [65, 255, 0] :=
  mmg_codec_roundtrip_latin1 idScheme (fun o => o) (fun b => some b) [65, 255, 0]
    rfl (by decide) rfl (by decide)

/-! ## JavaScript number conversions

`parseInt(s, 10)` and `parseFloat(s)` are JS builtins (external), modelled
here on their documented semantics for the inputs these routes see: skip
leading ASCII whitespace, optional sign, then the longest valid numeric
prefix; no digits at all gives `NaN`, modelled as `none`.  (`parseFloat`'s
`"Infinity"` form is not representable in `ℚ` and is folded into `none`;
for the finite comparisons below both yield the same branch.) -/

/-- Leading-whitespace skip shared by the two conversions. -/
def skipWs (l : List Char) : List Char :=
  l.dropWhile (fun c => c = ' ' ∨ c = '\t' ∨ c = '\n' ∨ c = '\r')

/-- Numeric value of a digit list (most significant first). -/
def digitsVal (l : List Char) : ℕ :=
  l.foldl (fun a c => a * 10 + (c.toNat - 48)) 0

/-- Longest leading digit run; `none` when it is empty. -/
def parseDigits (l : List Char) : Option ℕ :=
  let ds := l.takeWhile Char.isDigit
  if ds.isEmpty then none else some (digitsVal ds)

/-- Model of `parseInt(s, 10)`: whitespace, optional sign, leading digit run;
`none` models `NaN`. -/
def jsParseInt (s : String) : Option ℤ :=
  match skipWs s.data with
  | '-' :: rest => (parseDigits rest).map (fun n => -(n : ℤ))
  | '+' :: rest => (parseDigits rest).map (fun n => (n : ℤ))
  | rest => (parseDigits rest).map (fun n => (n : ℤ))

/-- Model of `parseFloat(s)`: whitespace, optional sign, digits, optional fraction,
optional exponent (the exponent only counts when it has digits); `none`
models `NaN`.  The value `sign · (int + frac/10^f) · 10^e` is built with
`mkRat` over integer arithmetic. -/
def jsParseFloat (s : String) : Option ℚ :=
  let l := skipWs s.data
  let sgn : ℤ × List Char :=
    match l with
    | '-' :: r => (-1, r)
    | '+' :: r => (1, r)
    | r => (1, r)
  let intDs := sgn.2.takeWhile Char.isDigit
  let l2 := sgn.2.drop intDs.length
  let fracDs : List Char :=
    match l2 with
    | '.' :: r => r.takeWhile Char.isDigit
    | _ => []
  let l3 : List Char :=
    match l2 with
    | '.' :: r => r.drop (r.takeWhile Char.isDigit).length
    | _ => l2
  if intDs.isEmpty ∧ fracDs.isEmpty then none
  else
    let e : ℤ :=
      match l3 with
      | c :: r =>
          if c = 'e' ∨ c = 'E' then
            match r with
            | '-' :: r2 => (match parseDigits r2 with | some n => -(n : ℤ) | none => 0)
            | '+' :: r2 => (match parseDigits r2 with | some n => (n : ℤ) | none => 0)
            | r2 => (match parseDigits r2 with | some n => (n : ℤ) | none => 0)
          else 0
      | [] => 0
    let mantNum : ℤ := (digitsVal intDs * 10 ^ fracDs.length + digitsVal fracDs : ℕ)
    some (mkRat (sgn.1 * mantNum * (10 : ℤ) ^ e.toNat)
      (10 ^ fracDs.length * 10 ^ (-e).toNat))

/-- Line 48 of the webhook route:
`ResultCode === '0' ? 0 : parseInt(ResultCode, 10)`; `none` models `NaN`. -/
def toResultCode (s : String) : Option ℤ :=
  if s = "0" then some 0 else jsParseInt s

theorem jsParseFloat_half : jsParseFloat "0.5" = some (mkRat 1 2) := by decide

theorem jsParseFloat_half_ne_zero : jsParseFloat "0.5" ≠ some 0 := by decide

theorem toResultCode_half_zero : toResultCode "0.5" = some 0 := by decide

theorem jsParseFloat_unparsable : jsParseFloat "abc" = none := by decide

theorem jsParseFloat_price : jsParseFloat "5000.00" = some (5000 : ℚ) := by decide

/-! ## Data model (payment_transactions, subscriptions, users, profiles,
mmg_webhook_logs — src/db.sql; only the columns the two routes touch) -/

inductive TxStatus
  | pending
  | completed
  | failed
deriving DecidableEq

/-- The decrypted callback payload (`DecryptedPaymentResponse` in the
webhook route). -/
structure Payload where
  merchantTransactionId : String
  transactionId : String
  ResultCode : String
  ResultMessage : String
  htmlResponse : String
deriving DecidableEq

/-- The fields of `MMGLookupResult` (src/lib/mmg.ts) that the confirmation
route reads.  Absent/null JS values are modelled as `""`/`none` (falsy). -/
structure MMGLookup where
  amount : String
  currency : String
  transactionReference : String
  transactionReceipt : String
  creationDate : Option ℕ
deriving DecidableEq

/-- Column `gateway_response` stores the raw callback payload (webhook path) or
the raw lookup result (confirmation path). -/
inductive GatewayBlob
  | callback (p : Payload)
  | lookup (r : MMGLookup)
deriving DecidableEq

structure PaymentTx where
  id : String
  userId : String
  amount : ℚ
  currency : String
  status : TxStatus
  subscriptionId : Option ℕ := none
  mmgTransactionId : Option String := none
  mmgReference : Option String := none
  initiatedAt : Option ℕ := none
  completedAt : Option ℕ := none
  gatewayResponse : Option GatewayBlob := none
  errorMessage : Option String := none
deriving DecidableEq

structure AppUser where
  id : String
  authId : String
  role : Option String
deriving DecidableEq

structure Subscription where
  id : ℕ
  userId : String
  userRole : Option String
  planType : String
  amount : ℚ
  currency : String
  startDate : ℕ
  endDate : ℕ
  status : String
  paymentMethod : String
  paymentReference : String
  paymentDate : ℕ
deriving DecidableEq

structure Profile where
  userId : String
  subscriptionStatus : Option String := none
  subscriptionStartDate : Option ℕ := none
  subscriptionEndDate : Option ℕ := none
  updatedAt : Option ℕ := none
deriving DecidableEq

structure WebhookLog where
  merchantTransactionId : String
  transactionId : String
  resultCode : Option ℤ
  resultMessage : String
  htmlResponse : String
deriving DecidableEq

/-- The tables the reconciliation core reads and writes (the audit-log
table is kept outside, mirroring that the post-log code never touches
it). -/
structure Store where
  payments : List PaymentTx
  subscriptions : List Subscription
  users : List AppUser
  driverProfiles : List Profile
  riderProfiles : List Profile
  nextSubId : ℕ
  nextPayNum : ℕ
deriving DecidableEq

structure DB where
  store : Store
  webhookLogs : List WebhookLog
deriving DecidableEq

/-- Model of `.single()` and `.maybeSingle()` row reads: a row is
delivered exactly when the filter matches one row.  (`single` reports an
error on zero or several matches, `maybeSingle` on several; every caller
in these routes then reads `data`, which is null in all error cases —
both therefore collapse to this semantics.) -/
def singleRow {α : Type} (l : List α) (p : α → Bool) : Option α :=
  match l.filter p with
  | [x] => some x
  | _ => none

/-- Profile update of the success path: `subscription_status='active'`
plus the window timestamps, on every row of the user (`.eq('user_id', …)`;
zero matching rows is not an error). -/
def setProfileActive (l : List Profile) (uid : String) (startD endD now : ℕ) :
    List Profile :=
  l.map (fun pr =>
    if pr.userId = uid then
      { pr with
        subscriptionStatus := some "active"
        subscriptionStartDate := some startD
        subscriptionEndDate := some endD
        updatedAt := some now }
    else pr)

/-! ## Webhook route (GET /api/mmg/webhook, src/app/api/mmg/webhook/route.ts) -/

inductive WebhookResponse
  | badRequest (msg : String)
  | notFound (msg : String)
  | redirectSuccess (transactionId : String) (paymentId : String)
  | redirectFailed (transactionId : String) (paymentId : String) (reason : String)
  | serverError
deriving DecidableEq

/-- Failure switches for the datastore writes the route lets fail (each
`error` result that the route turns into a thrown exception → 500). -/
structure WriteOutcomes where
  subscriptionInsertOk : Bool := true
  paymentUpdateOk : Bool := true
  profileUpdateOk : Bool := true
  failureUpdateOk : Bool := true
deriving DecidableEq

def effAll : WriteOutcomes := {}

/-- Lines 79–240 of the webhook route: locate the transaction by
`merchantTransactionId`, idempotency check on the fetched snapshot,
success path (subscription insert, unconditional-by-id completion update,
role-keyed profile update) or failure path.  A thrown error is the
catch-all 500. -/
def webhookCore (s : Store) (payload : Payload) (eff : WriteOutcomes) (now : ℕ) :
    Store × WebhookResponse :=
  let resultCode := toResultCode payload.ResultCode
  match singleRow s.payments (fun p => p.id = payload.merchantTransactionId) with
  | none => (s, .notFound "Payment transaction not found")
  | some tx =>
    if resultCode = some 0 then
      if tx.status = .completed then
        (s, .redirectSuccess payload.transactionId tx.id)
      else
        let startDate := now
        let endDate := now + 30
        match singleRow s.users (fun u => u.id = tx.userId) with
        | none => (s, .serverError)
        | some user =>
          if eff.subscriptionInsertOk = false then (s, .serverError)
          else
            let sub : Subscription :=
              { id := s.nextSubId
                userId := tx.userId
                userRole := user.role
                planType := "monthly"
                amount := tx.amount
                currency := tx.currency
                startDate := startDate
                endDate := endDate
                status := "active"
                paymentMethod := "mmg"
                paymentReference := payload.transactionId
                paymentDate := now }
            let s1 := { s with
                        subscriptions := s.subscriptions ++ [sub]
                        nextSubId := s.nextSubId + 1 }
            if eff.paymentUpdateOk = false then (s1, .serverError)
            else
              let s2 := { s1 with payments := s1.payments.map (fun p =>
                if p.id = tx.id then
                  { p with
                    status := .completed
                    subscriptionId := some sub.id
                    mmgTransactionId := some payload.transactionId
                    mmgReference := some payload.transactionId
                    completedAt := some now
                    gatewayResponse := some (.callback payload) }
                else p) }
              if user.role = some "driver" then
                if eff.profileUpdateOk = false then (s2, .serverError)
                else
                  ({ s2 with driverProfiles :=
                      setProfileActive s2.driverProfiles tx.userId startDate endDate now },
                   .redirectSuccess payload.transactionId tx.id)
              else if user.role = some "rider" then
                if eff.profileUpdateOk = false then (s2, .serverError)
                else
                  ({ s2 with riderProfiles :=
                      setProfileActive s2.riderProfiles tx.userId startDate endDate now },
                   .redirectSuccess payload.transactionId tx.id)
              else (s2, .redirectSuccess payload.transactionId tx.id)
    else
      if eff.failureUpdateOk = false then (s, .serverError)
      else
        ({ s with payments := s.payments.map (fun p =>
            if p.id = tx.id then
              { p with
                status := .failed
                mmgTransactionId := some payload.transactionId
                gatewayResponse := some (.callback payload)
                errorMessage := some (if payload.ResultMessage = ""
                  then "Payment failed" else payload.ResultMessage) }
            else p) },
         .redirectFailed payload.transactionId tx.id payload.ResultMessage)

/-- The GET handler from the point where the token has been decrypted
(lines 47–252): result-code conversion, required-field validation,
best-effort audit-log insert (`logOk` false = insert error, which is only
logged), then the core. -/
def webhookGET (db : DB) (payload : Payload) (logOk : Bool) (eff : WriteOutcomes)
    (now : ℕ) : DB × WebhookResponse :=
  if payload.merchantTransactionId = "" then
    (db, .badRequest "Missing merchantTransactionId")
  else
    let logs :=
      if logOk then
        db.webhookLogs ++
          [{ merchantTransactionId := payload.merchantTransactionId
             transactionId := payload.transactionId
             resultCode := toResultCode payload.ResultCode
             resultMessage := payload.ResultMessage
             htmlResponse := payload.htmlResponse }]
      else db.webhookLogs
    let r := webhookCore db.store payload eff now
    ({ store := r.1, webhookLogs := logs }, r.2)

/-! ## Concrete fixtures -/

def txPending : PaymentTx :=
  { id := "pt-1"
    userId := "u-1"
    amount := 5000
    currency := "GYD"
    status := .pending
    initiatedAt := some 0 }

def riderUser : AppUser := { id := "u-1", authId := "a-1", role := some "rider" }

def store0 : Store :=
  { payments := [txPending]
    subscriptions := []
    users := [riderUser]
    driverProfiles := []
    riderProfiles := [{ userId := "u-1" }]
    nextSubId := 1
    nextPayNum := 1 }

def db0 : DB := { store := store0, webhookLogs := [] }

def payload0 : Payload :=
  { merchantTransactionId := "pt-1"
    transactionId := "MMG-1"
    ResultCode := "0"
    ResultMessage := "Approved"
    htmlResponse := "" }

/-- Claim C1 (failing-input demonstration): the success-application step is
not atomic.  With the located transaction pending and `ResultCode = "0"`,
when the subscription insert succeeds and the subsequent
`payment_transactions` completion update fails, the handler returns the
catch-all 500 and leaves the inserted Subscription behind while the
PaymentTransaction is still `pending` — partial state observable to every
reader.  (The route issues three independent Supabase writes with no
enclosing transaction; the confirmation route shares the same shape.) -/
theorem mmg_webhook_torn_state_on_update_failure :
    (webhookGET db0 payload0 true { paymentUpdateOk := false } 100).1.store.subscriptions.length
        = 1 ∧
      ((webhookGET db0 payload0 true { paymentUpdateOk := false } 100).1.store.payments.map
          PaymentTx.status) = [.pending] ∧
      (webhookGET db0 payload0 true { paymentUpdateOk := false } 100).2 = .serverError := by
  decide

/-- Claim C3, counterexample: replaying the same successful callback, the
second invocation's response is byte-identical to the first fresh-success
response — a 303 redirect to `/payment-success` carrying the gateway
transaction id and the payment id.  It is not marked as an
already-processed (duplicate) outcome and does not report the linked
subscription id (the redirect has no subscription-id parameter at all),
contrary to the claim. -/
theorem mmg_webhook_duplicate_response_unmarked :
    (webhookGET (webhookGET db0 payload0 true effAll 100).1 payload0 true effAll 200).2
        = (webhookGET db0 payload0 true effAll 100).2 ∧
      (webhookGET db0 payload0 true effAll 100).2 = .redirectSuccess "MMG-1" "pt-1" := by
  decide

/-! ## Interleaving model of concurrent webhook invocations (claim C2)

Each invocation of the webhook handler runs as an independent request; no
application-level lock serializes them.  One step of this machine is one
datastore operation of the route, the unit the store executes atomically:
the transaction fetch (the idempotency check and the result-code
classification are pure functions of the fetched snapshot), the user
fetch, the subscription insert, the `payment_transactions` completion
update (filtered by `id` only, exactly as `.eq('id', …)` in the source —
no `status = 'pending'` condition, and the affected-row count is never
read), the profile update, and the failure-branch update.  The audit-log
insert touches a separate table and is omitted. -/

inductive RacePC
  | start
  | readUser
  | insertSub
  | updatePay
  | updateProfile
  | failUpdate
  | done
deriving DecidableEq

structure RaceInv where
  pc : RacePC
  tx : Option PaymentTx := none
  user : Option AppUser := none
  subId : Option ℕ := none
  resp : Option WebhookResponse := none
deriving DecidableEq

def raceStep (payload : Payload) (now : ℕ) (s : Store) (inv : RaceInv) :
    Store × RaceInv :=
  match inv.pc with
  | .start =>
      match singleRow s.payments (fun p => p.id = payload.merchantTransactionId) with
      | none => (s, { inv with
          pc := .done
          resp := some (.notFound "Payment transaction not found") })
      | some tx =>
          if toResultCode payload.ResultCode = some 0 then
            if tx.status = .completed then
              (s, { inv with
                pc := .done
                tx := some tx
                resp := some (.redirectSuccess payload.transactionId tx.id) })
            else (s, { inv with pc := .readUser, tx := some tx })
          else (s, { inv with pc := .failUpdate, tx := some tx })
  | .readUser =>
      match inv.tx with
      | none => (s, { inv with pc := .done, resp := some .serverError })
      | some tx =>
          match singleRow s.users (fun u => u.id = tx.userId) with
          | none => (s, { inv with pc := .done, resp := some .serverError })
          | some u => (s, { inv with pc := .insertSub, user := some u })
  | .insertSub =>
      match inv.tx, inv.user with
      | some tx, some u =>
          let sub : Subscription :=
            { id := s.nextSubId
              userId := tx.userId
              userRole := u.role
              planType := "monthly"
              amount := tx.amount
              currency := tx.currency
              startDate := now
              endDate := now + 30
              status := "active"
              paymentMethod := "mmg"
              paymentReference := payload.transactionId
              paymentDate := now }
          ({ s with
              subscriptions := s.subscriptions ++ [sub]
              nextSubId := s.nextSubId + 1 },
           { inv with pc := .updatePay, subId := some sub.id })
      | _, _ => (s, { inv with pc := .done, resp := some .serverError })
  | .updatePay =>
      match inv.tx with
      | some tx =>
          ({ s with payments := s.payments.map (fun p =>
              if p.id = tx.id then
                { p with
                  status := .completed
                  subscriptionId := inv.subId
                  mmgTransactionId := some payload.transactionId
                  mmgReference := some payload.transactionId
                  completedAt := some now
                  gatewayResponse := some (.callback payload) }
              else p) },
           { inv with pc := .updateProfile })
      | none => (s, { inv with pc := .done, resp := some .serverError })
  | .updateProfile =>
      match inv.tx, inv.user with
      | some tx, some u =>
          if u.role = some "driver" then
            ({ s with driverProfiles :=
                setProfileActive s.driverProfiles tx.userId now (now + 30) now },
             { inv with
               pc := .done
               resp := some (.redirectSuccess payload.transactionId tx.id) })
          else if u.role = some "rider" then
            ({ s with riderProfiles :=
                setProfileActive s.riderProfiles tx.userId now (now + 30) now },
             { inv with
               pc := .done
               resp := some (.redirectSuccess payload.transactionId tx.id) })
          else
            (s, { inv with
              pc := .done
              resp := some (.redirectSuccess payload.transactionId tx.id) })
      | _, _ => (s, { inv with pc := .done, resp := some .serverError })
  | .failUpdate =>
      match inv.tx with
      | some tx =>
          ({ s with payments := s.payments.map (fun p =>
              if p.id = tx.id then
                { p with
                  status := .failed
                  mmgTransactionId := some payload.transactionId
                  gatewayResponse := some (.callback payload)
                  errorMessage := some (if payload.ResultMessage = ""
                    then "Payment failed" else payload.ResultMessage) }
              else p) },
           { inv with
             pc := .done
             resp := some (.redirectFailed payload.transactionId tx.id
               payload.ResultMessage) })
      | none => (s, { inv with pc := .done, resp := some .serverError })
  | .done => (s, inv)

structure RaceConfig where
  store : Store
  a : RaceInv
  b : RaceInv
deriving DecidableEq

/-- Run two concurrent invocations under a schedule (`true` = invocation A
takes the next datastore step, `false` = invocation B). -/
def raceRun (payload : Payload) (now : ℕ) : List Bool → RaceConfig → RaceConfig
  | [], c => c
  | w :: ws, c =>
      if w then
        let r := raceStep payload now c.store c.a
        raceRun payload now ws { c with store := r.1, a := r.2 }
      else
        let r := raceStep payload now c.store c.b
        raceRun payload now ws { c with store := r.1, b := r.2 }

def raceInit : RaceConfig :=
  { store := store0, a := { pc := .start }, b := { pc := .start } }

/-- Claim C2 (failing-input demonstration): the completion write is not a
compare-and-swap.  Two concurrent invocations of the webhook for the same
pending PaymentTransaction with a successful result, interleaved so that
both fetch the row (both see `pending`) before either writes, each insert
a Subscription: the run ends with two Subscriptions and both invocations
reporting the success redirect.  The completion update filters on `id`
only and its affected-row count is never examined, so neither invocation
can notice the other. -/
theorem mmg_webhook_race_double_subscription :
    (raceRun payload0 100
        [true, false, true, true, true, true, false, false, false, false]
        raceInit).store.subscriptions.length = 2 ∧
      (raceRun payload0 100
          [true, false, true, true, true, true, false, false, false, false]
          raceInit).a.resp = some (.redirectSuccess "MMG-1" "pt-1") ∧
      (raceRun payload0 100
          [true, false, true, true, true, true, false, false, false, false]
          raceInit).b.resp = some (.redirectSuccess "MMG-1" "pt-1") := by
  decide

/-- Sanity: a single uninterleaved invocation (all of A's steps first)
creates exactly one Subscription, and the second invocation then observes
`completed` and stops at the idempotency check. -/
theorem mmg_webhook_race_sequential_single_subscription :
    (raceRun payload0 100
        [true, true, true, true, true, false, false, false, false, false]
        raceInit).store.subscriptions.length = 1 ∧
      (raceRun payload0 100
          [true, true, true, true, true, false, false, false, false, false]
          raceInit).b.resp = some (.redirectSuccess "MMG-1" "pt-1") := by
  decide

def payloadHalf : Payload := { payload0 with ResultCode := "0.5" }

/-- Claim C5, counterexample: a gateway `ResultCode` of `"0.5"` is not
zero (it denotes one half), yet the webhook takes the success path and
creates a Subscription, because line 48 converts the code with
`parseInt(·, 10)`, which truncates `"0.5"` to `0`. -/
theorem mmg_webhook_success_on_nonzero_resultcode :
    (webhookGET db0 payloadHalf true effAll 100).1.store.subscriptions.length = 1 ∧
      (webhookGET db0 payloadHalf true effAll 100).2 = .redirectSuccess "MMG-1" "pt-1" ∧
      jsParseFloat "0.5" = some (mkRat 1 2) ∧ (mkRat 1 2 : ℚ) ≠ 0 := by
  decide

def payloadNoMtid : Payload := { payload0 with merchantTransactionId := "" }

/-- Claim C8, counterexample: a callback token that decrypts successfully
but whose payload lacks `merchantTransactionId` is rejected with the 400
validation response *before* the audit-log insert (route lines 52–58
precede the `mmg_webhook_logs` insert at lines 62–71), so no WebhookLog
row is written for it. -/
theorem mmg_webhook_no_log_on_missing_mtid :
    (webhookGET db0 payloadNoMtid true effAll 100).1.webhookLogs = [] ∧
      (webhookGET db0 payloadNoMtid true effAll 100).2
        = .badRequest "Missing merchantTransactionId" := by
  decide

/-- Claim C8 (amended): for every decrypted payload that carries a
`merchantTransactionId`, the audit-log row is appended whatever the
reconciliation outcome, and a failure of the log insert changes neither
the response nor any other table: the route only logs the error and
continues. -/
theorem mmg_webhook_log_best_effort (db : DB) (payload : Payload)
    (eff : WriteOutcomes) (now : ℕ)
    (hmt : payload.merchantTransactionId ≠ "") :
    (webhookGET db payload true eff now).1.webhookLogs
        = db.webhookLogs ++
            [{ merchantTransactionId := payload.merchantTransactionId
               transactionId := payload.transactionId
               resultCode := toResultCode payload.ResultCode
               resultMessage := payload.ResultMessage
               htmlResponse := payload.htmlResponse }] ∧
      (webhookGET db payload false eff now).2 = (webhookGET db payload true eff now).2 ∧
      (webhookGET db payload false eff now).1.store
        = (webhookGET db payload true eff now).1.store := by
  unfold webhookGET
  simp [hmt]

/-- Witness for `mmg_webhook_log_best_effort`. -/
theorem mmg_webhook_log_best_effort_witness :
    (webhookGET db0 payload0 true effAll 100).1.webhookLogs
        = [] ++
            [{ merchantTransactionId := "pt-1"
               transactionId := "MMG-1"
               resultCode := toResultCode "0"
               resultMessage := "Approved"
               htmlResponse := "" }] ∧
      (webhookGET db0 payload0 false effAll 100).2
        = (webhookGET db0 payload0 true effAll 100).2 ∧
      (webhookGET db0 payload0 false effAll 100).1.store
        = (webhookGET db0 payload0 true effAll 100).1.store :=
  mmg_webhook_log_best_effort db0 payload0 effAll 100 (by decide)

/-- Claim C3 (amended): a replayed successful callback whose located
transaction is already `completed` performs no write to
payment_transactions, subscriptions, users or profiles (the store is
returned untouched; only the audit-log table receives a row) and
immediately returns the same success redirect as a fresh success,
carrying the gateway transaction id and the payment id — so exactly one
Subscription and one completed PaymentTransaction remain. -/
theorem mmg_webhook_replay_no_writes (db : DB) (payload : Payload) (logOk : Bool)
    (eff : WriteOutcomes) (now : ℕ) (tx : PaymentTx)
    (hmt : payload.merchantTransactionId ≠ "")
    (hfind : singleRow db.store.payments
      (fun p => p.id = payload.merchantTransactionId) = some tx)
    (hdone : tx.status = .completed)
    (hrc : toResultCode payload.ResultCode = some 0) :
    (webhookGET db payload logOk eff now).1.store = db.store ∧
      (webhookGET db payload logOk eff now).2
        = .redirectSuccess payload.transactionId tx.id := by
  unfold webhookGET webhookCore
  simp [hmt, hfind, hrc, hdone]

def txDone : PaymentTx :=
  { txPending with
    status := .completed
    subscriptionId := some 1
    mmgTransactionId := some "MMG-1"
    mmgReference := some "MMG-1"
    completedAt := some 100
    gatewayResponse := some (.callback payload0) }

def dbDone : DB :=
  { store := { store0 with payments := [txDone] }, webhookLogs := [] }

/-- Witness for `mmg_webhook_replay_no_writes`. -/
theorem mmg_webhook_replay_no_writes_witness :
    (webhookGET dbDone payload0 true effAll 200).1.store = dbDone.store ∧
      (webhookGET dbDone payload0 true effAll 200).2
        = .redirectSuccess "MMG-1" "pt-1" :=
  mmg_webhook_replay_no_writes dbDone payload0 true effAll 200 txDone
    (by decide) (by decide) (by decide) (by decide)

/-- Claim C5 (amended): with the transaction located and still pending
(and its owner resolvable), the webhook takes the success path — creating
a Subscription — exactly when line 48's converted result code is zero,
i.e. when `ResultCode` is `"0"` or its leading decimal integer prefix
parses to `0` (`parseInt(·, 10)` semantics); for every other value it
takes the failure path: the transaction is set to `failed` with the
gateway's failure message (`ResultMessage`, defaulted to
`'Payment failed'` when empty) and the raw payload preserved, no
Subscription is created, and the response is the failure redirect. -/
theorem mmg_webhook_outcome_classification (db : DB) (payload : Payload) (now : ℕ)
    (tx : PaymentTx) (u : AppUser)
    (hmt : payload.merchantTransactionId ≠ "")
    (hfind : singleRow db.store.payments
      (fun p => p.id = payload.merchantTransactionId) = some tx)
    (hpending : tx.status = .pending)
    (huser : singleRow db.store.users (fun v => v.id = tx.userId) = some u) :
    ((webhookGET db payload true effAll now).1.store.subscriptions
        ≠ db.store.subscriptions ↔ toResultCode payload.ResultCode = some 0) ∧
      (toResultCode payload.ResultCode ≠ some 0 →
        (webhookGET db payload true effAll now).1.store.subscriptions
            = db.store.subscriptions ∧
          (webhookGET db payload true effAll now).1.store.payments
            = db.store.payments.map (fun p =>
                if p.id = tx.id then
                  { p with
                    status := .failed
                    mmgTransactionId := some payload.transactionId
                    gatewayResponse := some (.callback payload)
                    errorMessage := some (if payload.ResultMessage = ""
                      then "Payment failed" else payload.ResultMessage) }
                else p) ∧
          (webhookGET db payload true effAll now).2
            = .redirectFailed payload.transactionId tx.id payload.ResultMessage) := by
  have hne : tx.status ≠ TxStatus.completed := by simp [hpending]
  by_cases hrc : toResultCode payload.ResultCode = some 0
  · refine ⟨?_, fun hcontra => (hcontra hrc).elim⟩
    simp only [hrc, iff_true]
    unfold webhookGET webhookCore
    simp only [hmt, hfind, hrc, hne, huser, effAll, if_neg, if_pos, ite_false, ite_true]
    simp [hmt, hfind, hrc, hne, huser, effAll]
    split_ifs <;>
      { intro h; simpa using congrArg List.length h }
  · refine ⟨?_, fun _ => ?_⟩
    · simp only [hrc, iff_false, not_not]
      unfold webhookGET webhookCore
      simp [hmt, hfind, hrc, effAll]
    · unfold webhookGET webhookCore
      simp [hmt, hfind, hrc, effAll]

/-- Witness for `mmg_webhook_outcome_classification`. -/
theorem mmg_webhook_outcome_classification_witness :
    ((webhookGET db0 payload0 true effAll 100).1.store.subscriptions
        ≠ db0.store.subscriptions ↔ toResultCode payload0.ResultCode = some 0) ∧
      (toResultCode payload0.ResultCode ≠ some 0 →
        (webhookGET db0 payload0 true effAll 100).1.store.subscriptions
            = db0.store.subscriptions ∧
          (webhookGET db0 payload0 true effAll 100).1.store.payments
            = db0.store.payments.map (fun p =>
                if p.id = txPending.id then
                  { p with
                    status := .failed
                    mmgTransactionId := some payload0.transactionId
                    gatewayResponse := some (.callback payload0)
                    errorMessage := some (if payload0.ResultMessage = ""
                      then "Payment failed" else payload0.ResultMessage) }
                else p) ∧
          (webhookGET db0 payload0 true effAll 100).2
            = .redirectFailed payload0.transactionId txPending.id payload0.ResultMessage) :=
  mmg_webhook_outcome_classification db0 payload0 100 txPending riderUser
    (by decide) (by decide) (by decide) (by decide)

/-- Claim C9: in the webhook success path, when the owner's role is
neither `'driver'` nor `'rider'`, the Subscription is still created with
that role snapshotted into `user_role` and the PaymentTransaction is
marked completed, but neither `driver_profiles` nor `rider_profiles` is
touched (the role `if/else if` has no final `else`), and the response is
the same success redirect as for recognized roles. -/
theorem mmg_webhook_unknown_role_frame (db : DB) (payload : Payload) (now : ℕ)
    (tx : PaymentTx) (u : AppUser) (r : String)
    (hmt : payload.merchantTransactionId ≠ "")
    (hfind : singleRow db.store.payments
      (fun p => p.id = payload.merchantTransactionId) = some tx)
    (hpending : tx.status = .pending)
    (hrc : toResultCode payload.ResultCode = some 0)
    (huser : singleRow db.store.users (fun v => v.id = tx.userId) = some u)
    (hrole : u.role = some r) (hd : r ≠ "driver") (hri : r ≠ "rider") :
    (webhookGET db payload true effAll now).1.store.subscriptions
        = db.store.subscriptions ++
            [{ id := db.store.nextSubId
               userId := tx.userId
               userRole := some r
               planType := "monthly"
               amount := tx.amount
               currency := tx.currency
               startDate := now
               endDate := now + 30
               status := "active"
               paymentMethod := "mmg"
               paymentReference := payload.transactionId
               paymentDate := now }] ∧
      (webhookGET db payload true effAll now).1.store.payments
        = db.store.payments.map (fun p =>
            if p.id = tx.id then
              { p with
                status := .completed
                subscriptionId := some db.store.nextSubId
                mmgTransactionId := some payload.transactionId
                mmgReference := some payload.transactionId
                completedAt := some now
                gatewayResponse := some (.callback payload) }
            else p) ∧
      (webhookGET db payload true effAll now).1.store.driverProfiles
        = db.store.driverProfiles ∧
      (webhookGET db payload true effAll now).1.store.riderProfiles
        = db.store.riderProfiles ∧
      (webhookGET db payload true effAll now).2
        = .redirectSuccess payload.transactionId tx.id := by
  have hne : tx.status ≠ TxStatus.completed := by simp [hpending]
  have hd' : u.role ≠ some "driver" := by simp [hrole, hd]
  have hri' : u.role ≠ some "rider" := by simp [hrole, hri]
  unfold webhookGET webhookCore
  simp [hmt, hfind, hrc, hne, huser, hd', hri', hrole, hd, hri, effAll]

def adminUser : AppUser := { id := "u-1", authId := "a-1", role := some "admin" }

def dbAdmin : DB :=
  { store := { store0 with users := [adminUser] }, webhookLogs := [] }

/-- Witness for `mmg_webhook_unknown_role_frame`. -/
theorem mmg_webhook_unknown_role_frame_witness :
    (webhookGET dbAdmin payload0 true effAll 100).1.store.subscriptions
        = dbAdmin.store.subscriptions ++
            [{ id := dbAdmin.store.nextSubId
               userId := txPending.userId
               userRole := some "admin"
               planType := "monthly"
               amount := txPending.amount
               currency := txPending.currency
               startDate := 100
               endDate := 100 + 30
               status := "active"
               paymentMethod := "mmg"
               paymentReference := payload0.transactionId
               paymentDate := 100 }] ∧
      (webhookGET dbAdmin payload0 true effAll 100).1.store.payments
        = dbAdmin.store.payments.map (fun p =>
            if p.id = txPending.id then
              { p with
                status := .completed
                subscriptionId := some dbAdmin.store.nextSubId
                mmgTransactionId := some payload0.transactionId
                mmgReference := some payload0.transactionId
                completedAt := some 100
                gatewayResponse := some (.callback payload0) }
            else p) ∧
      (webhookGET dbAdmin payload0 true effAll 100).1.store.driverProfiles
        = dbAdmin.store.driverProfiles ∧
      (webhookGET dbAdmin payload0 true effAll 100).1.store.riderProfiles
        = dbAdmin.store.riderProfiles ∧
      (webhookGET dbAdmin payload0 true effAll 100).2
        = .redirectSuccess payload0.transactionId txPending.id :=
  mmg_webhook_unknown_role_frame dbAdmin payload0 100 txPending adminUser "admin"
    (by decide) (by decide) (by decide) (by decide) (by decide) (by decide)
    (by decide) (by decide)

/-! ## Confirmation route (POST confirm-payment, second handler of
src/unnamed/part_005)

External collaborators are parameters: `hasBearer`/`authUser` model the
`Authorization` header check and `supabase.auth.getUser` (the verified
auth id, `none` = invalid token); `lookup` models
`mmgService.lookupTransaction`, which throws (`Except.error`) when the
HTTP call fails or the transaction is not `successful`.  Every response
of this handler is `NextResponse.json` — the response type below has no
redirect constructor, mirroring that the route never redirects. -/

/-- JS `String.prototype.trim()`: strip leading and trailing whitespace
(structural model; core `String.trim` is well-founded-recursive and is
avoided so that concrete runs reduce in the kernel). -/
def jsTrim (s : String) : String :=
  ⟨((s.data.dropWhile Char.isWhitespace).reverse.dropWhile Char.isWhitespace).reverse⟩

structure ConfirmReq where
  transactionId : String
  subscriptionType : String
deriving DecidableEq

/-- The `system_config.subscription_prices` value (Configured Price
Table); a missing or non-numeric entry is `none`. -/
structure SubscriptionPrices where
  rider_monthly : Option ℚ := none
  driver_monthly : Option ℚ := none
deriving DecidableEq

inductive ConfirmResponse
  | error (status : ℕ) (msg : String)
  | errorWithDetails (status : ℕ) (msg details : String)
  | errorWithCode (status : ℕ) (msg code : String)
  | alreadyProcessed (paymentTransactionId : String) (subscriptionId : Option ℕ)
  | success (paymentTransactionId : String) (subscriptionId : ℕ) (amount : ℚ)
      (currency : String)
deriving DecidableEq

/-- The confirm-payment handler, line by line: input validation, auth,
user profile load, role/plan coupling, cross-user guard
(`.neq('user_id', …).maybeSingle()` — its error on several matching rows
is ignored, so the guard fires only on exactly one match), per-user
idempotency, price configuration, gateway lookup, amount check
(`parseFloat(lookupResult.amount) || 0` against strict `!==`), then the
completed payment insert, subscription insert, link update and profile
update.  Fresh payment ids are drawn from a counter (the store's uuid
generation, injective). -/
def confirmPOST (s : Store) (prices : Option SubscriptionPrices) (req : ConfirmReq)
    (hasBearer : Bool) (authUser : Option String) (lookup : Except String MMGLookup)
    (now : ℕ) : Store × ConfirmResponse :=
  if jsTrim req.transactionId = "" then
    (s, .error 400 "transactionId is required and must be a non-empty string")
  else if ¬(req.subscriptionType = "rider_monthly" ∨
      req.subscriptionType = "driver_monthly") then
    (s, .error 400 "subscriptionType is required and must be 'rider_monthly' or 'driver_monthly'")
  else if ¬hasBearer then
    (s, .error 401 "Missing or invalid authorization token")
  else
    match authUser with
    | none => (s, .error 401 "Invalid token")
    | some aid =>
      match singleRow s.users (fun u => u.authId = aid) with
      | none => (s, .error 404 "User profile not found")
      | some user =>
        match user.role with
        | none => (s, .error 400 "User profile incomplete. Role not set.")
        | some role =>
          let expectedRole :=
            if req.subscriptionType = "rider_monthly" then "rider" else "driver"
          if role ≠ expectedRole then
            (s, .error 400 "subscriptionType does not match your account role")
          else
            let tid := jsTrim req.transactionId
            match singleRow s.payments
                (fun p => p.mmgTransactionId = some tid ∧ p.userId ≠ user.id) with
            | some _ => (s, .error 409 "Transaction already linked to another account")
            | none =>
              match singleRow s.payments (fun p => p.userId = user.id ∧
                  p.mmgTransactionId = some tid ∧ p.status = TxStatus.completed) with
              | some existing => (s, .alreadyProcessed existing.id existing.subscriptionId)
              | none =>
                match prices with
                | none => (s, .error 500 "Subscription pricing is not configured")
                | some ps =>
                  match (if req.subscriptionType = "rider_monthly"
                      then ps.rider_monthly else ps.driver_monthly) with
                  | none => (s, .error 500 "Subscription pricing is not configured for this plan")
                  | some expected =>
                    if expected ≤ 0 then
                      (s, .error 500 "Subscription pricing is not configured for this plan")
                    else
                      match lookup with
                      | .error msg =>
                          (s, .errorWithDetails 400
                            "Transaction not found or not successful" msg)
                      | .ok r =>
                        let amount : ℚ := (jsParseFloat r.amount).getD 0
                        if amount ≠ expected then
                          (s, .errorWithCode 422
                            "Payment amount does not match subscription price"
                            "AMOUNT_MISMATCH")
                        else
                          let currency := if r.currency = "" then "GYD" else r.currency
                          let mmgReference :=
                            if r.transactionReference ≠ "" then r.transactionReference
                            else if r.transactionReceipt ≠ "" then r.transactionReceipt
                            else tid
                          let payId := "cp-" ++ toString s.nextPayNum
                          let newPay : PaymentTx :=
                            { id := payId
                              userId := user.id
                              amount := amount
                              currency := currency
                              status := .completed
                              mmgTransactionId := some tid
                              mmgReference := some mmgReference
                              initiatedAt := some (r.creationDate.getD now)
                              completedAt := some now
                              gatewayResponse := some (.lookup r) }
                          let s1 := { s with
                            payments := s.payments ++ [newPay]
                            nextPayNum := s.nextPayNum + 1 }
                          let sub : Subscription :=
                            { id := s1.nextSubId
                              userId := user.id
                              userRole := some role
                              planType := "monthly"
                              amount := amount
                              currency := currency
                              startDate := now
                              endDate := now + 30
                              status := "active"
                              paymentMethod := "mmg"
                              paymentReference := tid
                              paymentDate := now }
                          let s2 := { s1 with
                            subscriptions := s1.subscriptions ++ [sub]
                            nextSubId := s1.nextSubId + 1 }
                          let s3 := { s2 with payments := s2.payments.map (fun p =>
                            if p.id = payId then { p with subscriptionId := some sub.id }
                            else p) }
                          let s4 :=
                            if role = "driver" then
                              { s3 with driverProfiles :=
                                  setProfileActive s3.driverProfiles user.id now (now + 30) now }
                            else if role = "rider" then
                              { s3 with riderProfiles :=
                                  setProfileActive s3.riderProfiles user.id now (now + 30) now }
                            else s3
                          (s4, .success payId sub.id amount currency)

/-- Claim C6: when the request reaches the amount check (validation,
auth, role coupling, cross-user guard, idempotency, configured positive
price and a successful gateway lookup all passed) and the looked-up
amount parses to a value different from the configured price — the
comparison is strict `!==`, exact numeric equality — the handler answers
HTTP 422 with the machine-readable code `AMOUNT_MISMATCH` as JSON (this
handler never redirects), and the store is returned untouched: no
PaymentTransaction and no Subscription row is created. -/
theorem mmg_confirm_amount_mismatch (s : Store) (ps : SubscriptionPrices)
    (req : ConfirmReq) (aid : String) (user : AppUser) (role : String)
    (r : MMGLookup) (expected v : ℚ) (now : ℕ)
    (htid : jsTrim req.transactionId ≠ "")
    (hst : req.subscriptionType = "rider_monthly" ∨
      req.subscriptionType = "driver_monthly")
    (huser : singleRow s.users (fun u => u.authId = aid) = some user)
    (hrole : user.role = some role)
    (hmatch : role = (if req.subscriptionType = "rider_monthly"
      then "rider" else "driver"))
    (hother : singleRow s.payments (fun p =>
      p.mmgTransactionId = some (jsTrim req.transactionId) ∧ p.userId ≠ user.id) = none)
    (hidem : singleRow s.payments (fun p => p.userId = user.id ∧
      p.mmgTransactionId = some (jsTrim req.transactionId) ∧
      p.status = TxStatus.completed) = none)
    (hexp : (if req.subscriptionType = "rider_monthly"
      then ps.rider_monthly else ps.driver_monthly) = some expected)
    (hpos : 0 < expected)
    (hamount : jsParseFloat r.amount = some v)
    (hne : v ≠ expected) :
    confirmPOST s (some ps) req true (some aid) (.ok r) now =
      (s, .errorWithCode 422 "Payment amount does not match subscription price"
        "AMOUNT_MISMATCH") := by
  have hnle : ¬ expected ≤ 0 := not_le.mpr hpos
  simp only [Bool.decide_and, decide_not] at hother hidem
  rcases hst with h | h <;>
    simp [h] at hexp hmatch <;>
    simp [confirmPOST, h, htid, huser, hrole, hmatch, hother, hidem, hexp,
      hnle, hamount, hne]

def userC : AppUser := { id := "u-C", authId := "a-C", role := some "rider" }

def storeClean : Store :=
  { payments := []
    subscriptions := []
    users := [userC]
    driverProfiles := []
    riderProfiles := [{ userId := "u-C" }]
    nextSubId := 1
    nextPayNum := 1 }

def pricesRider : SubscriptionPrices := { rider_monthly := some 5000 }

def reqC : ConfirmReq := { transactionId := "T-9", subscriptionType := "rider_monthly" }

def lookupOk : MMGLookup :=
  { amount := "5000.00"
    currency := "GYD"
    transactionReference := "REF-9"
    transactionReceipt := ""
    creationDate := some 50 }

def lookupWrongAmount : MMGLookup := { lookupOk with amount := "4000.00" }

/-- Witness for `mmg_confirm_amount_mismatch`. -/
theorem mmg_confirm_amount_mismatch_witness :
    confirmPOST storeClean (some pricesRider) reqC true (some "a-C")
        (.ok lookupWrongAmount) 100 =
      (storeClean, .errorWithCode 422
        "Payment amount does not match subscription price" "AMOUNT_MISMATCH") :=
  mmg_confirm_amount_mismatch storeClean pricesRider reqC "a-C" userC "rider"
    lookupWrongAmount 5000 4000 100 (by decide) (Or.inl rfl) (by decide) (by decide)
    (by decide) (by decide) (by decide) (by decide) (by decide) (by decide) (by decide)

def lookupNaN : MMGLookup := { lookupOk with amount := "N/A" }

/-- Claim C10: in the confirmation path a gateway amount string with no
parsable numeric prefix is coerced to `0` by
`parseFloat(lookupResult.amount) || 0`; the configured price must already
have been checked positive (`expectedAmount <= 0` returns 500 before the
lookup), so `0 !== expectedAmount` always holds and the request is
rejected with 422 `AMOUNT_MISMATCH` with the store untouched — an
unparsable gateway amount can never activate a subscription. -/
theorem mmg_confirm_unparsable_amount_rejected (s : Store) (ps : SubscriptionPrices)
    (req : ConfirmReq) (aid : String) (user : AppUser) (role : String)
    (r : MMGLookup) (expected : ℚ) (now : ℕ)
    (htid : jsTrim req.transactionId ≠ "")
    (hst : req.subscriptionType = "rider_monthly" ∨
      req.subscriptionType = "driver_monthly")
    (huser : singleRow s.users (fun u => u.authId = aid) = some user)
    (hrole : user.role = some role)
    (hmatch : role = (if req.subscriptionType = "rider_monthly"
      then "rider" else "driver"))
    (hother : singleRow s.payments (fun p =>
      p.mmgTransactionId = some (jsTrim req.transactionId) ∧ p.userId ≠ user.id) = none)
    (hidem : singleRow s.payments (fun p => p.userId = user.id ∧
      p.mmgTransactionId = some (jsTrim req.transactionId) ∧
      p.status = TxStatus.completed) = none)
    (hexp : (if req.subscriptionType = "rider_monthly"
      then ps.rider_monthly else ps.driver_monthly) = some expected)
    (hpos : 0 < expected)
    (hamount : jsParseFloat r.amount = none) :
    confirmPOST s (some ps) req true (some aid) (.ok r) now =
      (s, .errorWithCode 422 "Payment amount does not match subscription price"
        "AMOUNT_MISMATCH") := by
  have hnle : ¬ expected ≤ 0 := not_le.mpr hpos
  have hz : (0 : ℚ) ≠ expected := ne_of_lt hpos
  simp only [Bool.decide_and, decide_not] at hother hidem
  rcases hst with h | h <;>
    simp [h] at hexp hmatch <;>
    simp [confirmPOST, h, htid, huser, hrole, hmatch, hother, hidem, hexp,
      hnle, hamount, hz]

/-- Witness for `mmg_confirm_unparsable_amount_rejected`. -/
theorem mmg_confirm_unparsable_amount_rejected_witness :
    confirmPOST storeClean (some pricesRider) reqC true (some "a-C")
        (.ok lookupNaN) 100 =
      (storeClean, .errorWithCode 422
        "Payment amount does not match subscription price" "AMOUNT_MISMATCH") :=
  mmg_confirm_unparsable_amount_rejected storeClean pricesRider reqC "a-C" userC
    "rider" lookupNaN 5000 100 (by decide) (Or.inl rfl) (by decide) (by decide)
    (by decide) (by decide) (by decide) (by decide) (by decide) (by decide)

def userB : AppUser := { id := "u-B", authId := "a-B", role := some "rider" }

def txBfailed : PaymentTx :=
  { id := "pb-1"
    userId := "u-B"
    amount := 5000
    currency := "GYD"
    status := .failed
    mmgTransactionId := some "T-9" }

def txBdone : PaymentTx :=
  { id := "pb-2"
    userId := "u-B"
    amount := 5000
    currency := "GYD"
    status := .completed
    mmgTransactionId := some "T-9"
    subscriptionId := some 1 }

def storeConflict : Store :=
  { payments := [txBfailed, txBdone]
    subscriptions := []
    users := [userB, userC]
    driverProfiles := []
    riderProfiles := [{ userId := "u-B" }, { userId := "u-C" }]
    nextSubId := 2
    nextPayNum := 1 }

/-- Claim C7, counterexample: user B owns both a failed and a completed
PaymentTransaction carrying gateway id `"T-9"` (a state the routes
themselves can produce: a failed webhook outcome stores the gateway id on
the failed row, and a later confirmation by B inserts a fresh completed
row with the same id; `db.sql` puts no unique constraint on
`mmg_transaction_id`).  When user C now confirms `"T-9"`, the cross-user
guard's `.maybeSingle()` sees two matching rows, reports an error that
the route ignores — `data` is null — so no 409 is returned: the request
sails through and creates a completed PaymentTransaction and a
Subscription for C, double-claiming B's payment. -/
theorem mmg_confirm_cross_user_conflict_bypassed :
    (confirmPOST storeConflict (some pricesRider) reqC true (some "a-C")
        (.ok lookupOk) 100).2 = .success "cp-1" 2 5000 "GYD" ∧
      (confirmPOST storeConflict (some pricesRider) reqC true (some "a-C")
          (.ok lookupOk) 100).1.payments.length = 3 ∧
      (storeConflict.payments.filter (fun p => p.mmgTransactionId = some "T-9" ∧
          p.status = TxStatus.completed ∧ p.userId ≠ "u-C")).length = 1 := by
  decide

/-- Claim C7 (amended): when *exactly one* payment_transactions row with
this gateway transaction id belongs to a user other than the caller — in
particular a single completed one — the confirmation answers 409 Conflict
and creates or modifies nothing (with two or more such rows the guard is
bypassed, see the counterexample; the guard also fires when that single
row is merely pending or failed). -/
theorem mmg_confirm_cross_user_conflict_409 (s : Store)
    (prices : Option SubscriptionPrices) (req : ConfirmReq) (aid : String)
    (user : AppUser) (role : String) (row : PaymentTx)
    (lookup : Except String MMGLookup) (now : ℕ)
    (htid : jsTrim req.transactionId ≠ "")
    (hst : req.subscriptionType = "rider_monthly" ∨
      req.subscriptionType = "driver_monthly")
    (huser : singleRow s.users (fun u => u.authId = aid) = some user)
    (hrole : user.role = some role)
    (hmatch : role = (if req.subscriptionType = "rider_monthly"
      then "rider" else "driver"))
    (hother : singleRow s.payments (fun p =>
      p.mmgTransactionId = some (jsTrim req.transactionId) ∧ p.userId ≠ user.id)
      = some row) :
    confirmPOST s prices req true (some aid) lookup now =
      (s, .error 409 "Transaction already linked to another account") := by
  simp only [Bool.decide_and, decide_not] at hother
  rcases hst with h | h <;>
    simp [h] at hmatch <;>
    simp [confirmPOST, h, htid, huser, hrole, hmatch, hother]

def storeConflictOne : Store := { storeConflict with payments := [txBdone] }

/-- Witness for `mmg_confirm_cross_user_conflict_409`. -/
theorem mmg_confirm_cross_user_conflict_409_witness :
    confirmPOST storeConflictOne (some pricesRider) reqC true (some "a-C")
        (.ok lookupOk) 100 =
      (storeConflictOne, .error 409 "Transaction already linked to another account") :=
  mmg_confirm_cross_user_conflict_409 storeConflictOne (some pricesRider) reqC
    "a-C" userC "rider" txBdone (.ok lookupOk) 100 (by decide) (Or.inl rfl)
    (by decide) (by decide) (by decide) (by decide)
